import Mathlib

/-!
Shallow embedding of the 3D knowledge-graph renderer of GBSkillEngine
(frontend component KnowledgeGraph3D and its data hook useGraph3D).

The data model follows the TypeScript interfaces of the component
(Position3D, NodeStyle, Graph3DNode, Graph3DEdge, TimeSliceInfo,
DomainInfo, GraphMetadata, Graph3DData, Graph3DFilterParams).
Float-valued fields are modelled as rationals; property maps are
modelled as association lists of string keys to string scalar values,
which covers every property access the component performs (it only
reads the string-valued key "domain").
-/

namespace GBSkill

/-- Position3D: server-assigned 3D coordinates, interface Position3D. -/
structure Position3D where
  x : Rat
  y : Rat
  z : Rat
deriving DecidableEq

/-- NodeStyle: interface NodeStyle with color, size, opacity. -/
structure NodeStyle where
  color : String
  size : Rat
  opacity : Rat
deriving DecidableEq

/-- The seven node types of the nodeType union in interface Graph3DNode. -/
inductive NodeType where
  | Standard
  | Skill
  | Category
  | Domain
  | TimeSlice
  | StandardSeries
  | SkillFamily
deriving DecidableEq

/-- interface Graph3DNode. The properties record is an association list;
lookup of the key "domain" models the access node.properties?.domain. -/
structure Graph3DNode where
  id : String
  nodeType : NodeType
  label : String
  properties : List (String × String)
  position : Position3D
  style : NodeStyle
deriving DecidableEq

/-- interface Graph3DEdge (the optional edge properties record is carried
as a possibly empty association list). -/
structure Graph3DEdge where
  source : String
  target : String
  type : String
  properties : List (String × String) := []
deriving DecidableEq

/-- interface TimeSliceInfo. -/
structure TimeSliceInfo where
  year : Int
  z_position : Rat
  label : String
deriving DecidableEq

/-- interface DomainInfo. -/
structure DomainInfo where
  domain_id : String
  domain_name : String
  color : String
  sector_angle : Rat
deriving DecidableEq

/-- interface GraphMetadata; timeRange min and max are nullable numbers. -/
structure GraphMetadata where
  totalNodes : Nat
  totalEdges : Nat
  timeRangeMin : Option Int
  timeRangeMax : Option Int
  domainCount : Nat
deriving DecidableEq

/-- interface Graph3DData. -/
structure Graph3DData where
  nodes : List Graph3DNode
  edges : List Graph3DEdge
  timeSlices : List TimeSliceInfo
  domains : List DomainInfo
  metadata : GraphMetadata
deriving DecidableEq

/-- interface Graph3DFilterParams. -/
structure Graph3DFilterParams where
  startYear : Option Int := none
  endYear : Option Int := none
  domains : Option (List String) := none
  limit : Option Nat := none
deriving DecidableEq

/-- The node predicate of the filteredData memo in KnowledgeGraph3D:
Domain nodes are kept when their id is in selectedDomains; TimeSlice
nodes are always kept; every other node is kept when it has a truthy
properties.domain value d with "domain_" ++ d in selectedDomains.
A missing key or the empty string is falsy in the guard
if (!nodeDomain) return false. -/
def nodeKeep (selectedDomains : List String) (node : Graph3DNode) : Bool :=
  if node.nodeType = NodeType.Domain then
    selectedDomains.contains node.id
  else if node.nodeType = NodeType.TimeSlice then
    true
  else
    match node.properties.lookup "domain" with
    | none => false
    | some d => if d = "" then false else selectedDomains.contains ("domain_" ++ d)

/-- The filteredData memo of KnowledgeGraph3D: null data passes through;
when selectedDomains.length equals domains.length and domains is
non-empty the original data object is returned unchanged; otherwise
nodes are filtered by nodeKeep, edges are kept only when both endpoints
survive, and metadata.totalNodes and metadata.totalEdges are recomputed
while the remaining metadata fields are spread from the input. -/
def filteredData : Option Graph3DData → List String → List DomainInfo → Option Graph3DData
  | none, _, _ => none
  | some data, selectedDomains, domains =>
    if selectedDomains.length = domains.length ∧ 0 < domains.length then
      some data
    else
      let filteredNodes := data.nodes.filter (fun node => nodeKeep selectedDomains node)
      let nodeIds := filteredNodes.map (fun n => n.id)
      let filteredEdges := data.edges.filter
        (fun edge => nodeIds.contains edge.source && nodeIds.contains edge.target)
      some { data with
        nodes := filteredNodes
        edges := filteredEdges
        metadata := { data.metadata with
          totalNodes := filteredNodes.length
          totalEdges := filteredEdges.length } }

/-- The domain-retention rule exactly as the specification words it:
a node is retained iff it is a TimeSlice node, or it is a Domain node
whose id is in selectedDomainIds, or it carries a domain property whose
derived domain-node id ("domain_" ++ value) is in selectedDomainIds. -/
def specRetain (selectedDomainIds : List String) (node : Graph3DNode) : Bool :=
  (node.nodeType = NodeType.TimeSlice)
  || (node.nodeType = NodeType.Domain && selectedDomainIds.contains node.id)
  || (match node.properties.lookup "domain" with
      | none => false
      | some d => selectedDomainIds.contains ("domain_" ++ d))

/-- The amended domain-retention rule, matching the observed behaviour of
the node filter: Domain nodes are judged by their id only, TimeSlice nodes
are always kept, and the domain-property disjunct applies only to nodes of
the remaining types, with an empty-string property value treated as
missing. -/
def specRetainAmended (selectedDomainIds : List String) (node : Graph3DNode) : Bool :=
  (node.nodeType = NodeType.TimeSlice)
  || (node.nodeType = NodeType.Domain && selectedDomainIds.contains node.id)
  || (node.nodeType ≠ NodeType.Domain && node.nodeType ≠ NodeType.TimeSlice &&
      (match node.properties.lookup "domain" with
       | none => false
       | some d => d ≠ "" && selectedDomainIds.contains ("domain_" ++ d)))

/-- Local UI state of the KnowledgeGraph3D component: selectedNode and
detailVisible (selection controller), selectedDomains, timeRange, and the
domainsInitialized ref guarding the one-shot domain-selection default. -/
structure KGState where
  selectedNode : Option Graph3DNode
  detailVisible : Bool
  selectedDomains : List String
  timeRange : Option (Int × Int)
  domainsInitialized : Bool
deriving DecidableEq

/-- Events acting on KGState: the two initialization effects (re-run with
the current reference lists whenever those lists change or the component
re-renders), the two user filter handlers, a renderer node click, and the
detail-panel close. -/
inductive KGEvent where
  | domainsEffect (domains : List DomainInfo)
  | timeSlicesEffect (timeSlices : List TimeSliceInfo)
  | userSelectDomains (sel : List String)
  | userTimeRange (lo hi : Int)
  | nodeClick (node : Graph3DNode)
  | panelClose
deriving DecidableEq

/-- The domain-selection initialization effect of KnowledgeGraph3D:
if (domains.length > 0 && !domainsInitialized.current) then select every
domain id and set the ref; otherwise do nothing. -/
def domainsInitEffect (domains : List DomainInfo) (s : KGState) : KGState :=
  if 0 < domains.length ∧ s.domainsInitialized = false then
    { s with selectedDomains := domains.map (fun d => d.domain_id)
             domainsInitialized := true }
  else s

/-- The time-range initialization effect of KnowledgeGraph3D:
if (timeSlices.length > 0 && !timeRange) then sort the years ascending and
set the range to the first and last sorted year; otherwise do nothing. -/
def timeRangeInitEffect (timeSlices : List TimeSliceInfo) (s : KGState) : KGState :=
  if 0 < timeSlices.length ∧ s.timeRange = none then
    match (timeSlices.map (fun t => t.year)).insertionSort (fun a b => a ≤ b) with
    | [] => s
    | y :: ys =>
      { s with timeRange := some (y, (y :: ys).getLast (List.cons_ne_nil y ys)) }
  else s

/-- One step of the KnowledgeGraph3D component state: the two effects,
handleDomainChange (local selection update only), the local part of
handleTimeRangeChange, handleNodeClick (select node and open the panel),
and the NodeDetailPanel onClose callback (hide panel, clear selection). -/
def kgStep (s : KGState) : KGEvent → KGState
  | KGEvent.domainsEffect ds => domainsInitEffect ds s
  | KGEvent.timeSlicesEffect ts => timeRangeInitEffect ts s
  | KGEvent.userSelectDomains sel => { s with selectedDomains := sel }
  | KGEvent.userTimeRange lo hi => { s with timeRange := some (lo, hi) }
  | KGEvent.nodeClick node => { s with selectedNode := some node, detailVisible := true }
  | KGEvent.panelClose => { s with detailVisible := false, selectedNode := none }

/-- State owned by the useGraph3D hook: loading flag, raw dataset, the two
reference lists, the server filter params, plus the list of user-visible
error notifications emitted so far (message.error calls). -/
structure HookState where
  loading : Bool
  data : Option Graph3DData
  domains : List DomainInfo
  timeSlices : List TimeSliceInfo
  filters : Graph3DFilterParams
  errorsShown : List String
deriving DecidableEq

/-- The loadGraphData callback of useGraph3D, collapsed over one awaited
fetch outcome: on success the dataset is replaced; on failure a
user-visible error notification is emitted and nothing else changes; the
finally block clears the loading flag on both paths. -/
def loadGraphData (s : HookState) (result : Except String Graph3DData) : HookState :=
  match result with
  | Except.ok d => { s with loading := false, data := some d }
  | Except.error _ =>
    { s with loading := false
             errorsShown := s.errorsShown ++ ["加载3D图谱数据失败"] }

/-- The dataset handed to the renderer: the filteredData memo applied to
the hook dataset, the locally selected domains, and the hook domain list. -/
def displayedData (hs : HookState) (ks : KGState) : Option Graph3DData :=
  filteredData hs.data ks.selectedDomains hs.domains

/-- handleTimeRangeChange followed by the fetch it triggers through
updateFilters: the local timeRange state is set, the hook filters gain
startYear and endYear, and loadGraphData runs on the fetch outcome. -/
def handleTimeRangeChange (hs : HookState) (ks : KGState) (lo hi : Int)
    (result : Except String Graph3DData) : HookState × KGState :=
  let ks' := { ks with timeRange := some (lo, hi) }
  let hs' := { hs with filters := { hs.filters with startYear := some lo, endYear := some hi } }
  (loadGraphData hs' result, ks')

/-- The filtering prescribed by the (amended) retention rules, stated from
the specification side: keep the nodes the rules retain, keep the edges
whose endpoints both survive, recompute the two count fields of the
metadata. Used to compare the code filter against the prescribed rules. -/
def specFilter (data : Graph3DData) (sel : List String) : Graph3DData :=
  let keptNodes := data.nodes.filter (fun n => specRetainAmended sel n)
  let keptIds := keptNodes.map (fun n => n.id)
  let keptEdges := data.edges.filter
    (fun e => keptIds.contains e.source && keptIds.contains e.target)
  { data with
    nodes := keptNodes
    edges := keptEdges
    metadata := { data.metadata with
      totalNodes := keptNodes.length
      totalEdges := keptEdges.length } }

/-- True exactly on the user domain-selection event; the other events are
effect re-runs, renderer interactions, or the time slider. -/
def isUserSelectDomains : KGEvent → Bool
  | KGEvent.userSelectDomains _ => true
  | _ => false

section ConcreteData

/-- Shared zero position for concrete test nodes. -/
def posZero : Position3D := ⟨0, 0, 0⟩

/-- Shared default style for concrete test nodes. -/
def styleDefault : NodeStyle := ⟨"#00d4ff", 1, 1⟩

/-- Domain node D1 of scenarios A and B. -/
def nodeD1 : Graph3DNode :=
  ⟨"domain_d1", NodeType.Domain, "D1", [], posZero, styleDefault⟩

/-- Standard node S1 of scenarios A and B, attributed to domain d1. -/
def nodeS1 : Graph3DNode :=
  ⟨"s1", NodeType.Standard, "S1", [("domain", "d1")], posZero, styleDefault⟩

/-- TimeSlice node T2020 of scenarios A and B. -/
def nodeT2020 : Graph3DNode :=
  ⟨"t2020", NodeType.TimeSlice, "2020", [], posZero, styleDefault⟩

/-- The edge S1 to D1 of scenarios A and B. -/
def edgeS1D1 : Graph3DEdge := { source := "s1", target := "domain_d1", type := "BELONGS_TO" }

/-- The dataset of scenarios A and B. -/
def scenarioB : Graph3DData :=
  ⟨[nodeD1, nodeS1, nodeT2020], [edgeS1D1], [⟨2020, 0, "2020"⟩],
   [⟨"domain_d1", "d1", "#f59e0b", 0⟩], ⟨3, 1, some 2020, some 2020, 1⟩⟩

/-- A reference-list entry for one known domain. -/
def domA : DomainInfo := ⟨"domain_a", "A", "#f00", 0⟩

/-- A Domain node that carries a domain property pointing at a selected
domain while its own id is not selected. -/
def nodeDomX : Graph3DNode :=
  ⟨"X", NodeType.Domain, "X", [("domain", "d")], posZero, styleDefault⟩

/-- Dataset holding only nodeDomX. -/
def dataDomX : Graph3DData := ⟨[nodeDomX], [], [], [], ⟨1, 0, none, none, 1⟩⟩

/-- An edge whose endpoints name no node of its dataset. -/
def edgeAB : Graph3DEdge := { source := "a", target := "b", type := "REL" }

/-- A dataset with no nodes and one dangling edge. -/
def dataDangling : Graph3DData := ⟨[], [edgeAB], [], [], ⟨0, 1, none, none, 1⟩⟩

/-- A Standard node attributed to a domain that is never selected. -/
def nodeS3 : Graph3DNode :=
  ⟨"s3", NodeType.Standard, "S3", [("domain", "zzz")], posZero, styleDefault⟩

/-- Dataset holding only nodeS3. -/
def dataS3 : Graph3DData := ⟨[nodeS3], [], [], [], ⟨1, 0, none, none, 1⟩⟩

/-- A dataset whose input metadata overstates its node count. -/
def dataBadMeta : Graph3DData := ⟨[], [], [], [], ⟨5, 0, none, none, 1⟩⟩

/-- A blank component state (nothing selected, nothing initialized). -/
def ksBlank : KGState := ⟨none, false, [], none, false⟩

/-- The time-slice reference list of scenario D. -/
def scenarioSlices : List TimeSliceInfo := [⟨2018, 0, "2018"⟩, ⟨2024, 6, "2024"⟩]

/-- A state after initialization in which the user has deliberately
emptied the domain selection. -/
def ksEmptySel : KGState := ⟨none, false, [], some (2018, 2024), true⟩

/-- A concrete hook state holding the scenario dataset and one known
domain. -/
def hookA : HookState := ⟨false, some scenarioB, [domA], [], ⟨none, none, none, none⟩, []⟩

/-- A component state with the D1 domain selected and one time range. -/
def ksT1 : KGState := ⟨none, false, ["domain_d1"], some (2018, 2020), true⟩

/-- The same component state with a different time range. -/
def ksT2 : KGState := ⟨none, false, ["domain_d1"], some (2021, 2024), true⟩

end ConcreteData

section Helpers

/-- The inline node predicate of filteredData agrees pointwise with the
amended spec-side retention rule. -/
theorem nodeKeep_eq_specRetainAmended (sel : List String) (n : Graph3DNode) :
    nodeKeep sel n = specRetainAmended sel n := by
  unfold nodeKeep specRetainAmended
  cases h : n.nodeType <;> simp

/-- In a list sorted by the order on Int, the head is a lower bound. -/
theorem sorted_head_le (y : Int) (l : List Int)
    (hs : (y :: l).Sorted (fun a b => a ≤ b)) : ∀ z ∈ y :: l, y ≤ z := by
  intro z hz
  rcases List.mem_cons.mp hz with rfl | hz2
  · exact le_refl z
  · exact (List.sorted_cons.mp hs).1 z hz2

/-- In a list sorted by the order on Int, the last element is an upper
bound. -/
theorem sorted_le_getLast (l : List Int) (h : l ≠ [])
    (hs : l.Sorted (fun a b => a ≤ b)) : ∀ z ∈ l, z ≤ l.getLast h := by
  induction l with
  | nil => exact absurd rfl h
  | cons a t ih =>
    intro z hz
    cases t with
    | nil =>
      rcases List.mem_cons.mp hz with rfl | hz2
      · simp [List.getLast]
      · cases hz2
    | cons b t2 =>
      rw [List.getLast_cons (List.cons_ne_nil b t2)]
      rcases List.mem_cons.mp hz with rfl | hz2
      · exact (List.sorted_cons.mp hs).1 _ (List.getLast_mem (List.cons_ne_nil b t2))
      · exact ih (List.cons_ne_nil b t2) (List.sorted_cons.mp hs).2 z hz2

/-- Once the domainsInitialized ref is set, the domain initialization
effect is the identity on the component state. -/
theorem domainsInitEffect_of_initialized (ds : List DomainInfo) (s : KGState)
    (h : s.domainsInitialized = true) : domainsInitEffect ds s = s := by
  unfold domainsInitEffect
  rw [if_neg]
  rintro ⟨-, h2⟩
  rw [h] at h2
  cases h2

/-- Once a time range has been chosen, the time-range initialization
effect is the identity on the component state. -/
theorem timeRangeInitEffect_of_some (ts : List TimeSliceInfo) (s : KGState)
    (h : s.timeRange ≠ none) : timeRangeInitEffect ts s = s := by
  unfold timeRangeInitEffect
  rw [if_neg]
  rintro ⟨-, h2⟩
  exact h h2

/-- The time-range initialization effect touches only the timeRange
field. -/
theorem timeRangeInitEffect_preserves (ts : List TimeSliceInfo) (s : KGState) :
    (timeRangeInitEffect ts s).selectedNode = s.selectedNode ∧
    (timeRangeInitEffect ts s).detailVisible = s.detailVisible ∧
    (timeRangeInitEffect ts s).selectedDomains = s.selectedDomains ∧
    (timeRangeInitEffect ts s).domainsInitialized = s.domainsInitialized := by
  unfold timeRangeInitEffect
  split
  · split <;> simp
  · simp

/-- The domain initialization effect touches only the selectedDomains and
domainsInitialized fields. -/
theorem domainsInitEffect_preserves (ds : List DomainInfo) (s : KGState) :
    (domainsInitEffect ds s).selectedNode = s.selectedNode ∧
    (domainsInitEffect ds s).detailVisible = s.detailVisible ∧
    (domainsInitEffect ds s).timeRange = s.timeRange := by
  unfold domainsInitEffect
  split <;> simp

end Helpers

/-- C1 counterexample: the Domain node nodeDomX carries a domain property
whose derived id is selected, so the retention rule as claimed keeps it,
yet the filter (run on its non-short-circuit path, the domain reference
list being empty) drops it: Domain nodes are judged by their id only. -/
theorem C1_counterexample :
    specRetain ["domain_d"] nodeDomX = true ∧
    nodeDomX ∈ dataDomX.nodes ∧
    (filteredData (some dataDomX) ["domain_d"] []).map (fun d => d.nodes) = some [] := by
  decide

/-- C1 (amended): whenever the length-based identity short-circuit does
not fire, a node of the dataset is in the filter output iff it is a
TimeSlice node, or a Domain node whose id is selected, or a node of any
other type carrying a non-empty domain property whose derived id
(domain_ prefixed to the value) is selected. -/
theorem C1_retention_characterization (data : Graph3DData) (sel : List String)
    (domains : List DomainInfo) (node : Graph3DNode)
    (hshort : ¬ (sel.length = domains.length ∧ 0 < domains.length))
    (hmem : node ∈ data.nodes) :
    ∃ out, filteredData (some data) sel domains = some out ∧
      (node ∈ out.nodes ↔ specRetainAmended sel node = true) := by
  simp only [filteredData]
  rw [if_neg hshort]
  refine ⟨_, rfl, ?_⟩
  simp only [List.mem_filter, nodeKeep_eq_specRetainAmended]
  exact ⟨fun h => h.2, fun h => ⟨hmem, h⟩⟩

/-- C1 witness: the characterization applied to scenario B with the
domain reference list empty. -/
theorem C1_retention_characterization_witness :
    ∃ out, filteredData (some scenarioB) ["domain_d1"] [] = some out ∧
      (nodeS1 ∈ out.nodes ↔ specRetainAmended ["domain_d1"] nodeS1 = true) :=
  C1_retention_characterization scenarioB ["domain_d1"] [] nodeS1 (by decide) (by decide)

/-- C2 counterexample: with one known domain and a one-element selection
the length-based short-circuit returns the input unchanged, so the
dangling input edge edgeAB survives although neither endpoint is a
retained node. -/
theorem C2_counterexample :
    filteredData (some dataDangling) ["domain_a"] [domA] = some dataDangling ∧
    edgeAB ∈ dataDangling.edges ∧
    dataDangling.nodes.map (fun n => n.id) = [] := by
  decide

/-- C2 (amended): whenever the identity short-circuit does not fire,
every edge of the filter output has both endpoint ids among the ids of
the output nodes. -/
theorem C2_no_dangling_edges (data : Graph3DData) (sel : List String)
    (domains : List DomainInfo) (out : Graph3DData) (edge : Graph3DEdge)
    (hshort : ¬ (sel.length = domains.length ∧ 0 < domains.length))
    (hout : filteredData (some data) sel domains = some out)
    (hedge : edge ∈ out.edges) :
    edge.source ∈ out.nodes.map (fun n => n.id) ∧
    edge.target ∈ out.nodes.map (fun n => n.id) := by
  simp only [filteredData] at hout
  rw [if_neg hshort] at hout
  cases hout
  have h := (List.mem_filter.mp hedge).2
  rw [Bool.and_eq_true] at h
  exact ⟨List.mem_of_elem_eq_true h.1, List.mem_of_elem_eq_true h.2⟩

/-- C2 witness: the edge-consistency theorem applied to scenario B with
the domain reference list empty. -/
theorem C2_no_dangling_edges_witness :
    edgeS1D1.source ∈ scenarioB.nodes.map (fun n => n.id) ∧
    edgeS1D1.target ∈ scenarioB.nodes.map (fun n => n.id) :=
  C2_no_dangling_edges scenarioB ["domain_d1"] [] scenarioB edgeS1D1
    (by decide) (by decide) (by decide)

/-- C3 counterexample: the short-circuit is keyed on lengths, not set
equality, so the selection containing only the unknown id bogus (which is
not the full known domain set) still returns the input unchanged, keeping
nodeS3 although the retention rules prescribe dropping it. -/
theorem C3_counterexample :
    (["bogus"] : List String) ≠ [domA].map (fun d => d.domain_id) ∧
    filteredData (some dataS3) ["bogus"] [domA] = some dataS3 ∧
    nodeS3 ∈ dataS3.nodes ∧
    specRetain ["bogus"] nodeS3 = false := by
  decide

/-- C3 (amended): selecting the full domain-id list of a non-empty
reference list returns the input dataset unchanged, and for every
selection whose length differs from the reference-list length (or with an
empty reference list) the output is exactly what the retention rules
prescribe; the short-circuit itself fires on length equality, so it also
fires on same-length selections that are not the full domain set. -/
theorem C3_identity_shortcircuit (data : Graph3DData) (sel : List String)
    (domains : List DomainInfo)
    (hshort : ¬ (sel.length = domains.length ∧ 0 < domains.length)) :
    (domains ≠ [] →
      filteredData (some data) (domains.map (fun d => d.domain_id)) domains = some data) ∧
    filteredData (some data) sel domains = some (specFilter data sel) := by
  constructor
  · intro hne
    simp only [filteredData]
    rw [if_pos ⟨List.length_map _ _, List.length_pos.mpr hne⟩]
  · simp only [filteredData]
    rw [if_neg hshort]
    unfold specFilter
    rw [List.filter_congr (fun n _ => nodeKeep_eq_specRetainAmended sel n)]

/-- C3 witness: the theorem applied to scenario B, once with one known
domain and a two-element selection (identity on the full domain-id list,
prescribed output for the non-matching selection), and once with an empty
reference list (prescribed output there as well). -/
theorem C3_identity_shortcircuit_witness :
    filteredData (some scenarioB) ([domA].map (fun d => d.domain_id)) [domA] = some scenarioB ∧
    filteredData (some scenarioB) ["a", "b"] [domA] = some (specFilter scenarioB ["a", "b"]) ∧
    filteredData (some scenarioB) ["domain_d1"] [] = some (specFilter scenarioB ["domain_d1"]) :=
  ⟨(C3_identity_shortcircuit scenarioB ["a", "b"] [domA] (by decide)).1 (by decide),
   (C3_identity_shortcircuit scenarioB ["a", "b"] [domA] (by decide)).2,
   (C3_identity_shortcircuit scenarioB ["domain_d1"] [] (by decide)).2⟩

/-- C4 counterexample: under the short-circuit the input metadata is
passed through unchanged, so a dataset whose input metadata overstates
its node count yields an output with metadata.totalNodes equal to 5 while
the output node list is empty. -/
theorem C4_counterexample :
    filteredData (some dataBadMeta) ["x"] [domA] = some dataBadMeta ∧
    dataBadMeta.metadata.totalNodes = 5 ∧
    dataBadMeta.nodes.length = 0 := by
  decide

/-- C4 (amended): whenever the identity short-circuit does not fire, the
output metadata has totalNodes and totalEdges recomputed as the lengths
of the filtered node and edge lists, while the timeRange and domainCount
fields are copied from the input metadata. -/
theorem C4_metadata_recomputed (data : Graph3DData) (sel : List String)
    (domains : List DomainInfo)
    (hshort : ¬ (sel.length = domains.length ∧ 0 < domains.length)) :
    ∃ out, filteredData (some data) sel domains = some out ∧
      out.metadata.totalNodes = out.nodes.length ∧
      out.metadata.totalEdges = out.edges.length ∧
      out.metadata.timeRangeMin = data.metadata.timeRangeMin ∧
      out.metadata.timeRangeMax = data.metadata.timeRangeMax ∧
      out.metadata.domainCount = data.metadata.domainCount := by
  simp only [filteredData]
  rw [if_neg hshort]
  exact ⟨_, rfl, rfl, rfl, rfl, rfl, rfl⟩

/-- C4 witness: the metadata theorem applied to scenario B with one known
domain and a two-element selection. -/
theorem C4_metadata_recomputed_witness :
    ∃ out, filteredData (some scenarioB) ["a", "b"] [domA] = some out ∧
      out.metadata.totalNodes = out.nodes.length ∧
      out.metadata.totalEdges = out.edges.length ∧
      out.metadata.timeRangeMin = scenarioB.metadata.timeRangeMin ∧
      out.metadata.timeRangeMax = scenarioB.metadata.timeRangeMax ∧
      out.metadata.domainCount = scenarioB.metadata.domainCount :=
  C4_metadata_recomputed scenarioB ["a", "b"] [domA] (by decide)

/-- C5: on the scenario dataset (Domain node D1, Standard node S1
attributed to d1, TimeSlice node T2020, edge S1 to D1), selecting exactly
the D1 domain id yields all three nodes and keeps the edge, whatever the
domain reference list is (on the short-circuit path because the dataset is
returned unchanged, on the filter path because every node is retained). -/
theorem C5_scenarioB_filter (domains : List DomainInfo) :
    filteredData (some scenarioB) ["domain_d1"] domains = some scenarioB ∧
    scenarioB.nodes = [nodeD1, nodeS1, nodeT2020] ∧
    scenarioB.edges = [edgeS1D1] := by
  refine ⟨?_, by decide, by decide⟩
  simp only [filteredData]
  by_cases h : ((["domain_d1"] : List String).length = domains.length ∧ 0 < domains.length)
  · rw [if_pos h]
  · rw [if_neg h]
    decide

/-- C6: the domain selection is set to the full domain-id list exactly
once, the first time the effect runs with a non-empty reference list and
an unset guard; once the guard is set, no sequence of later events that
contains no user domain selection ever changes the selection (so a
deliberately emptied selection stays empty) and the guard stays set. -/
theorem C6_domain_selection_one_shot (s0 s : KGState) (ds : List DomainInfo)
    (events : List KGEvent)
    (h0 : s0.domainsInitialized = false) (hds : 0 < ds.length)
    (hinit : s.domainsInitialized = true)
    (hnouser : events.all (fun e => !(isUserSelectDomains e)) = true) :
    (kgStep s0 (KGEvent.domainsEffect ds)).selectedDomains
      = ds.map (fun d => d.domain_id) ∧
    (kgStep s0 (KGEvent.domainsEffect ds)).domainsInitialized = true ∧
    (events.foldl kgStep s).selectedDomains = s.selectedDomains ∧
    (events.foldl kgStep s).domainsInitialized = true := by
  have hmain : ∀ (evs : List KGEvent) (t : KGState), t.domainsInitialized = true →
      evs.all (fun e => !(isUserSelectDomains e)) = true →
      (evs.foldl kgStep t).selectedDomains = t.selectedDomains ∧
      (evs.foldl kgStep t).domainsInitialized = true := by
    intro evs
    induction evs with
    | nil => intro t ht _; exact ⟨rfl, ht⟩
    | cons e rest ih =>
      intro t ht hall
      rw [List.all_cons, Bool.and_eq_true] at hall
      have hstep : (kgStep t e).selectedDomains = t.selectedDomains ∧
          (kgStep t e).domainsInitialized = true := by
        cases e with
        | domainsEffect ds2 =>
          have hid : kgStep t (KGEvent.domainsEffect ds2) = t := by
            show domainsInitEffect ds2 t = t
            exact domainsInitEffect_of_initialized ds2 t ht
          rw [hid]
          exact ⟨rfl, ht⟩
        | timeSlicesEffect ts2 =>
          have hp := timeRangeInitEffect_preserves ts2 t
          refine ⟨hp.2.2.1, ?_⟩
          show (timeRangeInitEffect ts2 t).domainsInitialized = true
          rw [hp.2.2.2]
          exact ht
        | userSelectDomains sel =>
          exact absurd hall.1 (by simp [isUserSelectDomains])
        | userTimeRange lo hi => exact ⟨rfl, ht⟩
        | nodeClick m => exact ⟨rfl, ht⟩
        | panelClose => exact ⟨rfl, ht⟩
      rw [List.foldl_cons]
      have hr := ih (kgStep t e) hstep.2 hall.2
      exact ⟨by rw [hr.1, hstep.1], hr.2⟩
  have hfirst : kgStep s0 (KGEvent.domainsEffect ds)
      = { s0 with selectedDomains := ds.map (fun d => d.domain_id)
                  domainsInitialized := true } := by
    show domainsInitEffect ds s0 = _
    unfold domainsInitEffect
    rw [if_pos ⟨hds, h0⟩]
  have hm := hmain events s hinit hnouser
  rw [hfirst]
  exact ⟨rfl, rfl, hm.1, hm.2⟩

/-- C6 witness: the blank state initializes from one domain, and from an
initialized state with an emptied selection a further effect run (even
with a changed reference list) and a panel close leave the empty
selection and the guard untouched. -/
theorem C6_domain_selection_one_shot_witness :
    (kgStep ksBlank (KGEvent.domainsEffect [domA])).selectedDomains
      = [domA].map (fun d => d.domain_id) ∧
    (kgStep ksBlank (KGEvent.domainsEffect [domA])).domainsInitialized = true ∧
    (([KGEvent.domainsEffect [], KGEvent.panelClose] : List KGEvent).foldl
        kgStep ksEmptySel).selectedDomains = ksEmptySel.selectedDomains ∧
    (([KGEvent.domainsEffect [], KGEvent.panelClose] : List KGEvent).foldl
        kgStep ksEmptySel).domainsInitialized = true :=
  C6_domain_selection_one_shot ksBlank ksEmptySel [domA]
    [KGEvent.domainsEffect [], KGEvent.panelClose]
    (by decide) (by decide) (by decide) (by decide)

/-- C7: with no range chosen yet and a non-empty time-slice reference
list, the effect sets the range to the minimum and maximum year of the
list; scenario D initializes the blank state to [2018, 2024]; an already
chosen range survives any further effect run (in particular one with an
empty list), and no event ever returns the range to the unchosen state,
so the initialization fires at most once. -/
theorem C7_timeRange_initialization (s0 s : KGState) (ts bad : List TimeSliceInfo)
    (r : Int × Int) (e : KGEvent)
    (h0 : s0.timeRange = none) (hne : ts ≠ [])
    (hs : s.timeRange = some r) :
    (∃ lo hi, (kgStep s0 (KGEvent.timeSlicesEffect ts)).timeRange = some (lo, hi) ∧
      lo ∈ ts.map (fun t => t.year) ∧ hi ∈ ts.map (fun t => t.year) ∧
      ∀ y ∈ ts.map (fun t => t.year), lo ≤ y ∧ y ≤ hi) ∧
    (kgStep s (KGEvent.timeSlicesEffect bad)).timeRange = some r ∧
    (kgStep s e).timeRange ≠ none ∧
    (kgStep ksBlank (KGEvent.timeSlicesEffect scenarioSlices)).timeRange
      = some (2018, 2024) := by
  refine ⟨?_, ?_, ?_, by decide⟩
  · have hcond : 0 < ts.length ∧ s0.timeRange = none := ⟨List.length_pos.mpr hne, h0⟩
    have hyne : (ts.map (fun t => t.year)).insertionSort (fun a b => a ≤ b) ≠ [] := by
      intro hnil
      have hlen := List.length_insertionSort (fun a b : Int => a ≤ b)
        (ts.map (fun t => t.year))
      rw [hnil, List.length_map] at hlen
      exact hne (List.length_eq_zero.mp hlen.symm)
    rcases hsort : (ts.map (fun t => t.year)).insertionSort (fun a b => a ≤ b) with
      _ | ⟨y, ys⟩
    · exact absurd hsort hyne
    · have hsorted : (y :: ys).Sorted (fun a b : Int => a ≤ b) := by
        rw [← hsort]
        exact List.sorted_insertionSort _ _
      have hmemiff : ∀ z : Int, z ∈ y :: ys ↔ z ∈ ts.map (fun t => t.year) := by
        intro z
        rw [← hsort]
        exact List.mem_insertionSort _
      refine ⟨y, (y :: ys).getLast (List.cons_ne_nil y ys), ?_, ?_, ?_, ?_⟩
      · show (timeRangeInitEffect ts s0).timeRange = _
        unfold timeRangeInitEffect
        rw [if_pos hcond, hsort]
      · exact (hmemiff y).mp (List.mem_cons_self y ys)
      · exact (hmemiff _).mp (List.getLast_mem (List.cons_ne_nil y ys))
      · intro z hz
        have hz2 : z ∈ y :: ys := (hmemiff z).mpr hz
        exact ⟨sorted_head_le y ys hsorted z hz2,
               sorted_le_getLast (y :: ys) (List.cons_ne_nil y ys) hsorted z hz2⟩
  · have hid : kgStep s (KGEvent.timeSlicesEffect bad) = s := by
      show timeRangeInitEffect bad s = s
      exact timeRangeInitEffect_of_some bad s (by rw [hs]; exact Option.some_ne_none r)
    rw [hid, hs]
  · cases e with
    | domainsEffect ds2 =>
      show (domainsInitEffect ds2 s).timeRange ≠ none
      rw [(domainsInitEffect_preserves ds2 s).2.2, hs]
      exact Option.some_ne_none r
    | timeSlicesEffect ts2 =>
      show (timeRangeInitEffect ts2 s).timeRange ≠ none
      rw [timeRangeInitEffect_of_some ts2 s (by rw [hs]; exact Option.some_ne_none r), hs]
      exact Option.some_ne_none r
    | userSelectDomains sel =>
      show s.timeRange ≠ none
      rw [hs]; exact Option.some_ne_none r
    | userTimeRange lo hi =>
      show some (lo, hi) ≠ none
      exact Option.some_ne_none _
    | nodeClick m =>
      show s.timeRange ≠ none
      rw [hs]; exact Option.some_ne_none r
    | panelClose =>
      show s.timeRange ≠ none
      rw [hs]; exact Option.some_ne_none r

/-- C7 witness: the theorem applied to the blank state, scenario D's
reference list, an initialized state with range [2018, 2024], a later
empty reference list, and a panel-close event. -/
theorem C7_timeRange_initialization_witness :
    (∃ lo hi, (kgStep ksBlank (KGEvent.timeSlicesEffect scenarioSlices)).timeRange
        = some (lo, hi) ∧
      lo ∈ scenarioSlices.map (fun t => t.year) ∧
      hi ∈ scenarioSlices.map (fun t => t.year) ∧
      ∀ y ∈ scenarioSlices.map (fun t => t.year), lo ≤ y ∧ y ≤ hi) ∧
    (kgStep ksEmptySel (KGEvent.timeSlicesEffect [])).timeRange = some (2018, 2024) ∧
    (kgStep ksEmptySel KGEvent.panelClose).timeRange ≠ none ∧
    (kgStep ksBlank (KGEvent.timeSlicesEffect scenarioSlices)).timeRange
      = some (2018, 2024) :=
  C7_timeRange_initialization ksBlank ksEmptySel scenarioSlices [] (2018, 2024)
    KGEvent.panelClose (by decide) (by decide) (by decide)

/-- C8: when the graph-data fetch fails, the loading flag is cleared, a
user-visible error notification is appended, and every other piece of
hook state (dataset, reference lists, filters) is exactly as before; in
particular a previously stored dataset is kept rather than cleared. -/
theorem C8_fetch_failure_atomic (s : HookState) (msg : String) :
    (loadGraphData s (Except.error msg)).loading = false ∧
    (loadGraphData s (Except.error msg)).errorsShown
      = s.errorsShown ++ ["加载3D图谱数据失败"] ∧
    (loadGraphData s (Except.error msg)).data = s.data ∧
    (loadGraphData s (Except.error msg)).domains = s.domains ∧
    (loadGraphData s (Except.error msg)).timeSlices = s.timeSlices ∧
    (loadGraphData s (Except.error msg)).filters = s.filters :=
  ⟨rfl, rfl, rfl, rfl, rfl, rfl⟩

/-- C9: clicking any node from any state selects exactly that node and
opens the detail panel in one transition; the panel-close transition
clears the selection and hides the panel; and whenever a step ends with
no selection, either the event was the panel close or there was no
selection already, so the explicit close is the only transition into the
idle state. -/
theorem C9_selection_controller (s : KGState) (n : Graph3DNode) (e : KGEvent)
    (hnone : (kgStep s e).selectedNode = none) :
    (kgStep s (KGEvent.nodeClick n)).selectedNode = some n ∧
    (kgStep s (KGEvent.nodeClick n)).detailVisible = true ∧
    (kgStep s KGEvent.panelClose).selectedNode = none ∧
    (kgStep s KGEvent.panelClose).detailVisible = false ∧
    (e = KGEvent.panelClose ∨ s.selectedNode = none) := by
  refine ⟨rfl, rfl, rfl, rfl, ?_⟩
  cases e with
  | panelClose => exact Or.inl rfl
  | nodeClick m => exact absurd hnone (by simp [kgStep])
  | domainsEffect ds2 =>
    refine Or.inr ?_
    rw [← (domainsInitEffect_preserves ds2 s).1]
    exact hnone
  | timeSlicesEffect ts2 =>
    refine Or.inr ?_
    rw [← (timeRangeInitEffect_preserves ts2 s).1]
    exact hnone
  | userSelectDomains sel => exact Or.inr hnone
  | userTimeRange lo hi => exact Or.inr hnone

/-- C9 witness: the controller theorem applied to the emptied-selection
state, node S1, and a panel-close event. -/
theorem C9_selection_controller_witness :
    (kgStep ksEmptySel (KGEvent.nodeClick nodeS1)).selectedNode = some nodeS1 ∧
    (kgStep ksEmptySel (KGEvent.nodeClick nodeS1)).detailVisible = true ∧
    (kgStep ksEmptySel KGEvent.panelClose).selectedNode = none ∧
    (kgStep ksEmptySel KGEvent.panelClose).detailVisible = false ∧
    (KGEvent.panelClose = KGEvent.panelClose ∨ ksEmptySel.selectedNode = none) :=
  C9_selection_controller ksEmptySel nodeS1 KGEvent.panelClose (by decide)

/-- C10: the dataset handed to the renderer depends only on the raw
dataset, the selected domain list, and the length of the domain reference
list: two configurations agreeing on those three (with arbitrary, possibly
different time ranges and filters) display the same filtered data; and a
time-range change leaves the selected domains and the domain reference
list untouched, influencing the display only through the dataset the
triggered fetch stores. -/
theorem C10_time_range_noninterference (hs1 hs2 : HookState) (ks1 ks2 : KGState)
    (lo hi : Int) (d : Graph3DData)
    (hdata : hs1.data = hs2.data)
    (hsel : ks1.selectedDomains = ks2.selectedDomains)
    (hlen : hs1.domains.length = hs2.domains.length) :
    displayedData hs1 ks1 = displayedData hs2 ks2 ∧
    (handleTimeRangeChange hs1 ks1 lo hi (Except.ok d)).2.selectedDomains
      = ks1.selectedDomains ∧
    (handleTimeRangeChange hs1 ks1 lo hi (Except.ok d)).1.domains = hs1.domains ∧
    (handleTimeRangeChange hs1 ks1 lo hi (Except.ok d)).1.data = some d := by
  refine ⟨?_, rfl, rfl, rfl⟩
  unfold displayedData
  rw [hdata, hsel]
  cases hs2.data with
  | none => rfl
  | some dd =>
    simp only [filteredData]
    rw [hlen]

/-- C10 witness: the same hook state and two component states differing
only in their time range display the same filtered dataset. -/
theorem C10_time_range_noninterference_witness :
    displayedData hookA ksT1 = displayedData hookA ksT2 ∧
    (handleTimeRangeChange hookA ksT1 2018 2024 (Except.ok scenarioB)).2.selectedDomains
      = ksT1.selectedDomains ∧
    (handleTimeRangeChange hookA ksT1 2018 2024 (Except.ok scenarioB)).1.domains
      = hookA.domains ∧
    (handleTimeRangeChange hookA ksT1 2018 2024 (Except.ok scenarioB)).1.data
      = some scenarioB :=
  C10_time_range_noninterference hookA hookA ksT1 ksT2 2018 2024 scenarioB
    (by decide) (by decide) (by decide)

end GBSkill
